import Mathlib

/-!
Verification of the rbfx `Terrain` component (Source/Urho3D/Graphics/Terrain.cpp).

The C++ code is embedded shallowly:
  * machine `float` arithmetic is modelled by exact rationals (`ℚ`);
  * `int` / `unsigned` coordinates are modelled by `Int` / `Nat`, with C++
    truncating division written explicitly as `Int.tdiv`;
  * the raw height array `heightData_` is a `List ℚ` (`none` when unallocated);
  * the scene world transform of the node is modelled as a per-axis scale plus a
    translation (the code itself states "This assumes that the terrain scene
    node is upright"), and `Vector3::Normalized` (which involves a square
    root and is not exactly representable over `ℚ`) is passed in as an
    abstract function parameter where it occurs.
Stateful setters are modelled as explicit state-passing functions on a record
of the fields they read and write; a call of `CreateGeometry` is recorded by
bumping a regeneration counter.
-/

namespace Terrain

/-- Constants from the top of Terrain.cpp. -/
def MIN_LOD_LEVELS : Nat := 1

def MAX_LOD_LEVELS : Nat := 4

def DEFAULT_PATCH_SIZE : Int := 32

def MIN_PATCH_SIZE : Int := 4

def MAX_PATCH_SIZE : Int := 128

def STITCH_NORTH : Nat := 1

def STITCH_SOUTH : Nat := 2

def STITCH_WEST : Nat := 4

def STITCH_EAST : Nat := 8

/-- A 3-component vector with exact rational components, standing for
`Vector3`. -/
structure Vec3 where
  x : ℚ
  y : ℚ
  z : ℚ
deriving DecidableEq

instance : Add Vec3 := ⟨fun a b => ⟨a.x + b.x, a.y + b.y, a.z + b.z⟩⟩

/-- `Vector3 * float` (componentwise scale). -/
def Vec3.smul (v : Vec3) (s : ℚ) : Vec3 := ⟨v.x * s, v.y * s, v.z * s⟩

/-- `Vector3::UP` = (0,1,0). -/
def Vec3.up : Vec3 := ⟨0, 1, 0⟩

/-- `Vector3::ZERO`. -/
def Vec3.zero : Vec3 := ⟨0, 0, 0⟩

/-- Modelled from the spec: `Clamp` from MathDefs.h (not under src/) — clamps
a value into `[lo, hi]`. -/
def clampI (v lo hi : Int) : Int :=
  if v < lo then lo
  else if v > hi then hi
  else v

/-- Modelled from the spec: `Fract` from MathDefs.h (not under src/) —
fractional part, `value - Floor(value)`. -/
def fract (v : ℚ) : ℚ := v - ⌊v⌋

/-- Modelled from the spec: `RoundToInt` from MathDefs.h (not under src/) —
rounds to the nearest integer, halves upward (`Floor(value + 0.5)`). -/
def roundToInt (v : ℚ) : Int := ⌊v + 1 / 2⌋

/-- Modelled from the spec: `IsPowerOfTwo` from MathDefs.h (not under src/) —
`!(value & (value - 1))` on an unsigned value. -/
def isPowerOfTwo (v : Nat) : Bool := v &&& (v - 1) == 0

/-- The C++ cast `(unsigned)f` of a (in practice non-negative) float
coordinate: truncation toward zero. Negative inputs are clamped to 0 (the
C++ behaviour there is undefined and never exercised by the terrain). -/
def toUnsignedQ (v : ℚ) : Int := (⌊v⌋).toNat

/-- The world transform of the scene node, assumed upright (unrotated):
a per-axis scale and a translation. -/
structure NodeT where
  pos : Vec3
  scale : Vec3

/-- `node_->GetWorldTransform() * v` for an upright node. -/
def NodeT.apply (n : NodeT) (v : Vec3) : Vec3 :=
  ⟨v.x * n.scale.x + n.pos.x, v.y * n.scale.y + n.pos.y, v.z * n.scale.z + n.pos.z⟩

/-- `node_->GetWorldTransform().Inverse() * v` for an upright node. -/
def NodeT.applyInv (n : NodeT) (v : Vec3) : Vec3 :=
  ⟨(v.x - n.pos.x) / n.scale.x, (v.y - n.pos.y) / n.scale.y, (v.z - n.pos.z) / n.scale.z⟩

/-- The fields of `Terrain` that the height/coordinate queries read:
`node_`, `spacing_`, `patchWorldOrigin_`, `numVertices_`, `heightData_`,
`sourceHeightData_`. -/
structure TerrainM where
  node : Option NodeT
  spacing : Vec3
  patchWorldOrigin : ℚ × ℚ
  numVertices : Int × Int
  heightData : Option (List ℚ)
  sourceHeightData : Option (List ℚ)

/-- The row-major index `z * numVertices_.x_ + x` accessed by
`Terrain::GetRawHeight` after clamping. -/
def rawIndexOf (nv : Int × Int) (x z : Int) : Int :=
  clampI z 0 (nv.2 - 1) * nv.1 + clampI x 0 (nv.1 - 1)

/-- `Terrain::GetRawHeight` (Terrain.cpp:1321): 0 when no height data,
otherwise the sample at the clamped coordinates. -/
def getRawHeight (t : TerrainM) (x z : Int) : ℚ :=
  match t.heightData with
  | none => 0
  | some d => d.getD (rawIndexOf t.numVertices x z).toNat 0

/-- `Terrain::GetSourceHeight` (Terrain.cpp:1331). -/
def getSourceHeight (t : TerrainM) (x z : Int) : ℚ :=
  match t.sourceHeightData with
  | none => 0
  | some d => d.getD (rawIndexOf t.numVertices x z).toNat 0

/-- The barycentric interpolation `h1 * (1 - xFrac - zFrac) + h2 * xFrac +
h3 * zFrac` shared by both triangle branches of `Terrain::GetHeight`,
`Terrain::GetNormal` and `Terrain::GetLodHeight`. -/
def barycentricHeight (h1 h2 h3 xFrac zFrac : ℚ) : ℚ :=
  h1 * (1 - xFrac - zFrac) + h2 * xFrac + h3 * zFrac

/-- `Terrain::GetHeight` (Terrain.cpp:528): world position to interpolated
height; 0 when the component has no scene node. -/
def getHeight (t : TerrainM) (worldPosition : Vec3) : ℚ :=
  match t.node with
  | none => 0
  | some nd =>
    let position := nd.applyInv worldPosition
    let xPos := (position.x - t.patchWorldOrigin.1) / t.spacing.x
    let zPos := (position.z - t.patchWorldOrigin.2) / t.spacing.z
    let xFrac := fract xPos
    let zFrac := fract zPos
    let h :=
      if xFrac + zFrac ≥ 1 then
        barycentricHeight
          (getRawHeight t (toUnsignedQ xPos + 1) (toUnsignedQ zPos + 1))
          (getRawHeight t (toUnsignedQ xPos) (toUnsignedQ zPos + 1))
          (getRawHeight t (toUnsignedQ xPos + 1) (toUnsignedQ zPos))
          (1 - xFrac) (1 - zFrac)
      else
        barycentricHeight
          (getRawHeight t (toUnsignedQ xPos) (toUnsignedQ zPos))
          (getRawHeight t (toUnsignedQ xPos + 1) (toUnsignedQ zPos))
          (getRawHeight t (toUnsignedQ xPos) (toUnsignedQ zPos + 1))
          xFrac zFrac
    nd.scale.y * h + nd.pos.y

/-- `Terrain::GetRawNormal` (Terrain.cpp:1366); `nrm` stands for
`Vector3::Normalized`. -/
def getRawNormal (nrm : Vec3 → Vec3) (t : TerrainM) (x z : Int) : Vec3 :=
  let baseHeight := getRawHeight t x z
  let nSlope := getRawHeight t x (z - 1) - baseHeight
  let neSlope := getRawHeight t (x + 1) (z - 1) - baseHeight
  let eSlope := getRawHeight t (x + 1) z - baseHeight
  let seSlope := getRawHeight t (x + 1) (z + 1) - baseHeight
  let sSlope := getRawHeight t x (z + 1) - baseHeight
  let swSlope := getRawHeight t (x - 1) (z + 1) - baseHeight
  let wSlope := getRawHeight t (x - 1) z - baseHeight
  let nwSlope := getRawHeight t (x - 1) (z - 1) - baseHeight
  let up := 1 / 2 * (t.spacing.x + t.spacing.z)
  nrm (Vec3.mk 0 up nSlope +
       Vec3.mk (-neSlope) up neSlope +
       Vec3.mk (-eSlope) up 0 +
       Vec3.mk (-seSlope) up (-seSlope) +
       Vec3.mk 0 up (-sSlope) +
       Vec3.mk swSlope up (-swSlope) +
       Vec3.mk wSlope up 0 +
       Vec3.mk nwSlope up nwSlope)

/-- `Terrain::GetNormal` (Terrain.cpp:562): `Vector3::UP` when the component
has no scene node; otherwise barycentric interpolation of the three raw
normals of the containing triangle (the final rotation by the world
rotation of the node is the identity for an upright node). -/
def getNormal (nrm : Vec3 → Vec3) (t : TerrainM) (worldPosition : Vec3) : Vec3 :=
  match t.node with
  | none => Vec3.up
  | some nd =>
    let position := nd.applyInv worldPosition
    let xPos := (position.x - t.patchWorldOrigin.1) / t.spacing.x
    let zPos := (position.z - t.patchWorldOrigin.2) / t.spacing.z
    let xFrac := fract xPos
    let zFrac := fract zPos
    if xFrac + zFrac ≥ 1 then
      nrm ((getRawNormal nrm t (toUnsignedQ xPos + 1) (toUnsignedQ zPos + 1)).smul (1 - (1 - xFrac) - (1 - zFrac)) +
           (getRawNormal nrm t (toUnsignedQ xPos) (toUnsignedQ zPos + 1)).smul (1 - xFrac) +
           (getRawNormal nrm t (toUnsignedQ xPos + 1) (toUnsignedQ zPos)).smul (1 - zFrac))
    else
      nrm ((getRawNormal nrm t (toUnsignedQ xPos) (toUnsignedQ zPos)).smul (1 - xFrac - zFrac) +
           (getRawNormal nrm t (toUnsignedQ xPos + 1) (toUnsignedQ zPos)).smul xFrac +
           (getRawNormal nrm t (toUnsignedQ xPos) (toUnsignedQ zPos + 1)).smul zFrac)

/-- `Terrain::WorldToHeightMap` (Terrain.cpp:595): IntVector2::ZERO with no
node; otherwise round the fractional sample coordinates, clamp them into the
sample grid and flip the row axis. -/
def worldToHeightMap (t : TerrainM) (worldPosition : Vec3) : Int × Int :=
  match t.node with
  | none => (0, 0)
  | some nd =>
    let position := nd.applyInv worldPosition
    let xPos0 := roundToInt ((position.x - t.patchWorldOrigin.1) / t.spacing.x)
    let zPos0 := roundToInt ((position.z - t.patchWorldOrigin.2) / t.spacing.z)
    let xPos := clampI xPos0 0 (t.numVertices.1 - 1)
    let zPos := clampI zPos0 0 (t.numVertices.2 - 1)
    (xPos, t.numVertices.2 - 1 - zPos)

/-- `Terrain::HeightMapToWorld` (Terrain.cpp:609): Vector3::ZERO with no
node; otherwise flip the row axis, scale by spacing, offset by the patch
world origin, transform to world space and substitute the interpolated
height for y. -/
def heightMapToWorld (t : TerrainM) (pixelPosition : Int × Int) : Vec3 :=
  match t.node with
  | none => Vec3.zero
  | some nd =>
    let pos : Int × Int := (pixelPosition.1, t.numVertices.2 - 1 - pixelPosition.2)
    let xPos : ℚ := (pos.1 : ℚ) * t.spacing.x + t.patchWorldOrigin.1
    let zPos : ℚ := (pos.2 : ℚ) * t.spacing.z + t.patchWorldOrigin.2
    let lPos : Vec3 := ⟨xPos, 0, zPos⟩
    let wPos := nd.apply lPos
    ⟨wPos.x, getHeight t wPos, wPos.z⟩

/-! ### Helper lemmas about clamping and rounding -/

theorem clampI_eq_self (v lo hi : Int) (h1 : lo ≤ v) (h2 : v ≤ hi) : clampI v lo hi = v := by
  unfold clampI
  split_ifs <;> omega

theorem clampI_nonneg (v hi : Int) (h : 0 ≤ hi) : 0 ≤ clampI v 0 hi := by
  unfold clampI
  split_ifs <;> omega

theorem clampI_le (v hi : Int) (h : 0 ≤ hi) : clampI v 0 hi ≤ hi := by
  unfold clampI
  split_ifs <;> omega

theorem clampI_idem (v hi : Int) (h : 0 ≤ hi) : clampI (clampI v 0 hi) 0 hi = clampI v 0 hi := by
  unfold clampI
  split_ifs <;> omega

theorem roundToInt_intCast (n : Int) : roundToInt (n : ℚ) = n := by
  unfold roundToInt
  rw [Int.floor_eq_iff]
  constructor
  · norm_num
  · norm_num

/-- Claim C4: the interpolation of `GetHeight` is continuous across the
triangle-diagonal boundary of a unit cell: when `xFrac + zFrac = 1`, the
lower-triangle branch `h00*(1-xFrac-zFrac) + h10*xFrac + h01*zFrac` and the
upper-triangle branch (corners `h11, h01, h10` with both fractions flipped)
produce exactly the same value. -/
theorem getHeight_diagonal_continuity (h00 h10 h01 h11 xFrac zFrac : ℚ)
    (h : xFrac + zFrac = 1) :
    barycentricHeight h00 h10 h01 xFrac zFrac =
      barycentricHeight h11 h01 h10 (1 - xFrac) (1 - zFrac) := by
  have hz : zFrac = 1 - xFrac := by linarith
  subst hz
  unfold barycentricHeight
  ring

/-- Witness for C4 at `h00,h10,h01,h11 = 3,5,7,11` and `xFrac = zFrac = 1/2`. -/
theorem getHeight_diagonal_continuity_witness :
    (1 / 2 : ℚ) + 1 / 2 = 1 ∧
      barycentricHeight 3 5 7 (1 / 2) (1 / 2) =
        barycentricHeight 11 7 5 (1 - 1 / 2) (1 - 1 / 2) :=
  ⟨by norm_num, getHeight_diagonal_continuity 3 5 7 11 (1 / 2) (1 / 2) (by norm_num)⟩

/-- Claim C9: raw height lookups clamp out-of-range sample coordinates to
the valid bounds with no wraparound: for every integer `(x, z)` the
row-major index actually accessed is within `[0, width*height)`, and both
`GetRawHeight` and `GetSourceHeight` return the sample at
`(clamp x, clamp z)` — querying out of range equals querying the clamped
boundary coordinate. -/
theorem getRawHeight_clamped_in_bounds (t : TerrainM) (x z : Int)
    (hx : 0 < t.numVertices.1) (hz : 0 < t.numVertices.2) :
    0 ≤ rawIndexOf t.numVertices x z ∧
      rawIndexOf t.numVertices x z < t.numVertices.1 * t.numVertices.2 ∧
      getRawHeight t x z =
        getRawHeight t (clampI x 0 (t.numVertices.1 - 1)) (clampI z 0 (t.numVertices.2 - 1)) ∧
      getSourceHeight t x z =
        getSourceHeight t (clampI x 0 (t.numVertices.1 - 1)) (clampI z 0 (t.numVertices.2 - 1)) := by
  have hx0 : 0 ≤ clampI x 0 (t.numVertices.1 - 1) := clampI_nonneg _ _ (by omega)
  have hx1 : clampI x 0 (t.numVertices.1 - 1) ≤ t.numVertices.1 - 1 := clampI_le _ _ (by omega)
  have hz0 : 0 ≤ clampI z 0 (t.numVertices.2 - 1) := clampI_nonneg _ _ (by omega)
  have hz1 : clampI z 0 (t.numVertices.2 - 1) ≤ t.numVertices.2 - 1 := clampI_le _ _ (by omega)
  have hidx : rawIndexOf t.numVertices (clampI x 0 (t.numVertices.1 - 1))
      (clampI z 0 (t.numVertices.2 - 1)) = rawIndexOf t.numVertices x z := by
    unfold rawIndexOf
    rw [clampI_idem x (t.numVertices.1 - 1) (by omega), clampI_idem z (t.numVertices.2 - 1) (by omega)]
  refine ⟨?_, ?_, ?_, ?_⟩
  · unfold rawIndexOf
    exact add_nonneg (mul_nonneg hz0 (le_of_lt hx)) hx0
  · unfold rawIndexOf
    nlinarith [hx0, hx1, hz0, hz1]
  · unfold getRawHeight
    rw [hidx]
  · unfold getSourceHeight
    rw [hidx]

/-- Witness for C9: a 3×3 terrain queried at the out-of-range coordinate
`(5, -2)`. -/
theorem getRawHeight_clamped_in_bounds_witness :
    0 < ((3, 3) : Int × Int).1 ∧ 0 < ((3, 3) : Int × Int).2 ∧
      (0 ≤ rawIndexOf (3, 3) 5 (-2) ∧
        rawIndexOf (3, 3) 5 (-2) < 3 * 3 ∧
        getRawHeight ⟨none, ⟨1, 1/4, 1⟩, (0, 0), (3, 3), some [0, 1, 2, 3, 4, 5, 6, 7, 8], none⟩ 5 (-2) =
          getRawHeight ⟨none, ⟨1, 1/4, 1⟩, (0, 0), (3, 3), some [0, 1, 2, 3, 4, 5, 6, 7, 8], none⟩
            (clampI 5 0 (3 - 1)) (clampI (-2) 0 (3 - 1)) ∧
        getSourceHeight ⟨none, ⟨1, 1/4, 1⟩, (0, 0), (3, 3), some [0, 1, 2, 3, 4, 5, 6, 7, 8], none⟩ 5 (-2) =
          getSourceHeight ⟨none, ⟨1, 1/4, 1⟩, (0, 0), (3, 3), some [0, 1, 2, 3, 4, 5, 6, 7, 8], none⟩
            (clampI 5 0 (3 - 1)) (clampI (-2) 0 (3 - 1))) :=
  ⟨by decide, by decide,
    getRawHeight_clamped_in_bounds
      ⟨none, ⟨1, 1/4, 1⟩, (0, 0), (3, 3), some [0, 1, 2, 3, 4, 5, 6, 7, 8], none⟩ 5 (-2)
      (by decide) (by decide)⟩

/-- Claim C10: with no scene node the public height queries are total with
fixed defaults — `GetHeight` returns 0 and `GetNormal` returns the unit up
vector `(0,1,0)` for every world position, and `GetRawHeight` returns 0
whenever no height data is allocated. -/
theorem queries_default_without_node (nrm : Vec3 → Vec3) (t : TerrainM) (w : Vec3) (x z : Int)
    (h : t.node = none) :
    getHeight t w = 0 ∧
      getNormal nrm t w = ⟨0, 1, 0⟩ ∧
      (t.heightData = none → getRawHeight t x z = 0) := by
  refine ⟨?_, ?_, fun hd => ?_⟩
  · unfold getHeight
    rw [h]
  · unfold getNormal
    rw [h]
    rfl
  · unfold getRawHeight
    rw [hd]

/-- Witness for C10: a terrain model with no node and no height data. -/
theorem queries_default_without_node_witness :
    (⟨none, ⟨1, 1/4, 1⟩, (0, 0), (0, 0), none, none⟩ : TerrainM).node = none ∧
      (getHeight ⟨none, ⟨1, 1/4, 1⟩, (0, 0), (0, 0), none, none⟩ ⟨3, 4, 5⟩ = 0 ∧
        getNormal id ⟨none, ⟨1, 1/4, 1⟩, (0, 0), (0, 0), none, none⟩ ⟨3, 4, 5⟩ = ⟨0, 1, 0⟩ ∧
        ((⟨none, ⟨1, 1/4, 1⟩, (0, 0), (0, 0), none, none⟩ : TerrainM).heightData = none →
          getRawHeight ⟨none, ⟨1, 1/4, 1⟩, (0, 0), (0, 0), none, none⟩ 1 2 = 0)) :=
  ⟨rfl, queries_default_without_node id ⟨none, ⟨1, 1/4, 1⟩, (0, 0), (0, 0), none, none⟩ ⟨3, 4, 5⟩ 1 2 rfl⟩

/-- Claim C8: for every integer heightmap coordinate `(x, z)` inside the
sample grid, `WorldToHeightMap (HeightMapToWorld (x, z)) = (x, z)` exactly,
including the flip of the z/row axis performed by both conversions. -/
theorem worldToHeightMap_roundTrip (t : TerrainM) (nd : NodeT) (px pz : Int)
    (hnode : t.node = some nd)
    (hsx : t.spacing.x ≠ 0) (hsz : t.spacing.z ≠ 0)
    (hscx : nd.scale.x ≠ 0) (hscz : nd.scale.z ≠ 0)
    (hpx0 : 0 ≤ px) (hpx1 : px ≤ t.numVertices.1 - 1)
    (hpz0 : 0 ≤ pz) (hpz1 : pz ≤ t.numVertices.2 - 1) :
    worldToHeightMap t (heightMapToWorld t (px, pz)) = (px, pz) := by
  unfold worldToHeightMap heightMapToWorld
  rw [hnode]
  simp only [NodeT.apply, NodeT.applyInv]
  have hx : ((((px : ℚ) * t.spacing.x + t.patchWorldOrigin.1) * nd.scale.x + nd.pos.x - nd.pos.x)
      / nd.scale.x - t.patchWorldOrigin.1) / t.spacing.x = (px : ℚ) := by
    field_simp
  have hzq : (((((t.numVertices.2 - 1 - pz : Int) : ℚ) * t.spacing.z + t.patchWorldOrigin.2) * nd.scale.z
      + nd.pos.z - nd.pos.z) / nd.scale.z - t.patchWorldOrigin.2) / t.spacing.z
      = ((t.numVertices.2 - 1 - pz : Int) : ℚ) := by
    field_simp
  rw [hx, hzq, roundToInt_intCast, roundToInt_intCast,
    clampI_eq_self px 0 (t.numVertices.1 - 1) hpx0 hpx1,
    clampI_eq_self (t.numVertices.2 - 1 - pz) 0 (t.numVertices.2 - 1) (by omega) (by omega)]
  have hback : t.numVertices.2 - 1 - (t.numVertices.2 - 1 - pz) = pz := by omega
  rw [hback]

/-- Witness for C8: a 65×65 terrain on a node at (1,2,3) with scale
(2,1,2), heightmap coordinate (5, 7). -/
theorem worldToHeightMap_roundTrip_witness :
    (⟨some ⟨⟨1, 2, 3⟩, ⟨2, 1, 2⟩⟩, ⟨1, 1, 1⟩, (-32, -32), (65, 65), none, none⟩ : TerrainM).node =
        some ⟨⟨1, 2, 3⟩, ⟨2, 1, 2⟩⟩ ∧
      (⟨some ⟨⟨1, 2, 3⟩, ⟨2, 1, 2⟩⟩, ⟨1, 1, 1⟩, (-32, -32), (65, 65), none, none⟩ : TerrainM).spacing.x ≠ 0 ∧
      (⟨some ⟨⟨1, 2, 3⟩, ⟨2, 1, 2⟩⟩, ⟨1, 1, 1⟩, (-32, -32), (65, 65), none, none⟩ : TerrainM).spacing.z ≠ 0 ∧
      (⟨⟨1, 2, 3⟩, ⟨2, 1, 2⟩⟩ : NodeT).scale.x ≠ 0 ∧
      (⟨⟨1, 2, 3⟩, ⟨2, 1, 2⟩⟩ : NodeT).scale.z ≠ 0 ∧
      (0 : Int) ≤ 5 ∧ (5 : Int) ≤ 65 - 1 ∧ (0 : Int) ≤ 7 ∧ (7 : Int) ≤ 65 - 1 ∧
      worldToHeightMap ⟨some ⟨⟨1, 2, 3⟩, ⟨2, 1, 2⟩⟩, ⟨1, 1, 1⟩, (-32, -32), (65, 65), none, none⟩
          (heightMapToWorld
            ⟨some ⟨⟨1, 2, 3⟩, ⟨2, 1, 2⟩⟩, ⟨1, 1, 1⟩, (-32, -32), (65, 65), none, none⟩ (5, 7)) =
        (5, 7) :=
  ⟨rfl, by norm_num, by norm_num, by norm_num, by norm_num,
    by decide, by decide, by decide, by decide,
    worldToHeightMap_roundTrip
      ⟨some ⟨⟨1, 2, 3⟩, ⟨2, 1, 2⟩⟩, ⟨1, 1, 1⟩, (-32, -32), (65, 65), none, none⟩
      ⟨⟨1, 2, 3⟩, ⟨2, 1, 2⟩⟩ 5 7 rfl (by norm_num) (by norm_num) (by norm_num) (by norm_num)
      (by decide) (by decide) (by decide) (by decide)⟩

/-! ### LOD selection with edge stitching (`Terrain::UpdatePatchLod`) -/

/-- The neighbor test `north && north->GetLodLevel() > lodLevel` — a null
(absent) neighbor patch contributes no stitch. -/
def stitchToward (neighbor : Option Nat) (lodLevel : Nat) : Bool :=
  match neighbor with
  | some l => lodLevel < l
  | none => false

/-- The draw-range index chosen by `Terrain::UpdatePatchLod`
(Terrain.cpp:757): `lodLevel << 4`, with the four stitch bits or-ed in when
the level is below the coarsest; neighbors are given as their LOD levels
(`none` for an absent patch). -/
def updatePatchLodIndex (numLodLevels lodLevel : Nat)
    (north south west east : Option Nat) : Nat :=
  let idx := lodLevel <<< 4
  if lodLevel < numLodLevels - 1 then
    idx ||| (if stitchToward north lodLevel then STITCH_NORTH else 0)
        ||| (if stitchToward south lodLevel then STITCH_SOUTH else 0)
        ||| (if stitchToward west lodLevel then STITCH_WEST else 0)
        ||| (if stitchToward east lodLevel then STITCH_EAST else 0)
  else idx

theorem stitchToward_iff (neighbor : Option Nat) (lodLevel : Nat) :
    stitchToward neighbor lodLevel = true ↔ ∃ l, neighbor = some l ∧ lodLevel < l := by
  cases neighbor <;> simp [stitchToward]

/-- Claim C2: for a patch below the coarsest LOD level, the chosen draw-range
index has each STITCH bit (north = bit 0, south = bit 1, west = bit 2,
east = bit 3) set iff the corresponding neighbor patch exists and its LOD
level is strictly coarser; an absent neighbor contributes no stitch bit. -/
theorem updatePatchLod_stitch_bits (numLodLevels lodLevel : Nat)
    (north south west east : Option Nat)
    (h : lodLevel < numLodLevels - 1) :
    ((updatePatchLodIndex numLodLevels lodLevel north south west east).testBit 0 = true ↔
        ∃ l, north = some l ∧ lodLevel < l) ∧
      ((updatePatchLodIndex numLodLevels lodLevel north south west east).testBit 1 = true ↔
        ∃ l, south = some l ∧ lodLevel < l) ∧
      ((updatePatchLodIndex numLodLevels lodLevel north south west east).testBit 2 = true ↔
        ∃ l, west = some l ∧ lodLevel < l) ∧
      ((updatePatchLodIndex numLodLevels lodLevel north south west east).testBit 3 = true ↔
        ∃ l, east = some l ∧ lodLevel < l) := by
  unfold updatePatchLodIndex
  rw [if_pos h]
  rw [← stitchToward_iff north lodLevel, ← stitchToward_iff south lodLevel,
    ← stitchToward_iff west lodLevel, ← stitchToward_iff east lodLevel]
  cases hn : stitchToward north lodLevel <;>
    cases hs : stitchToward south lodLevel <;>
      cases hw : stitchToward west lodLevel <;>
        cases he : stitchToward east lodLevel <;>
          simp [STITCH_NORTH, STITCH_SOUTH, STITCH_WEST, STITCH_EAST,
            Nat.testBit_or, Nat.testBit_shiftLeft] <;> decide

/-- Witness for C2: two LOD levels, a level-0 patch with no north neighbor,
a level-0 south neighbor and coarser (level-1) west and east neighbors. -/
theorem updatePatchLod_stitch_bits_witness :
    0 < 2 - 1 ∧
      (((updatePatchLodIndex 2 0 none (some 0) (some 1) (some 1)).testBit 0 = true ↔
          ∃ l, (none : Option Nat) = some l ∧ 0 < l) ∧
        ((updatePatchLodIndex 2 0 none (some 0) (some 1) (some 1)).testBit 1 = true ↔
          ∃ l, (some 0 : Option Nat) = some l ∧ 0 < l) ∧
        ((updatePatchLodIndex 2 0 none (some 0) (some 1) (some 1)).testBit 2 = true ↔
          ∃ l, (some 1 : Option Nat) = some l ∧ 0 < l) ∧
        ((updatePatchLodIndex 2 0 none (some 0) (some 1) (some 1)).testBit 3 = true ↔
          ∃ l, (some 1 : Option Nat) = some l ∧ 0 < l)) :=
  ⟨by decide, updatePatchLod_stitch_bits 2 0 none (some 0) (some 1) (some 1) (by decide)⟩

/-! ### Configuration setters and height-map loading as a state machine -/

/-- An `Image` as the terrain sees it: dimensions, component count, whether
it is block-compressed, and its raw 8-bit data. -/
structure ImageM where
  width : Int
  height : Int
  components : Nat
  compressed : Bool
  data : List Nat
deriving DecidableEq

/-- The `Terrain` fields read and written by the configuration setters and
by `SetHeightMapInternal`, plus a counter of `CreateGeometry` invocations
(standing for "a regeneration was triggered"). -/
structure TerrainCfg where
  patchSize : Int
  maxLodLevels : Nat
  occlusionLodLevel : Nat
  lastPatchSize : Int
  heightMap : Option ImageM
  recreateTerrain : Bool
  regenCount : Nat
deriving DecidableEq

/-- A call of `Terrain::CreateGeometry`, observed here only through the
regeneration counter (its geometric output is modelled separately). -/
def createGeometryCall (s : TerrainCfg) : TerrainCfg :=
  { s with recreateTerrain := false, regenCount := s.regenCount + 1 }

/-- `Terrain::SetPatchSize` (Terrain.cpp:186): sizes outside `[4,128]` or
not a power of two are ignored; a new valid size is stored and triggers
`CreateGeometry`. -/
def setPatchSize (s : TerrainCfg) (size : Int) : TerrainCfg :=
  if size < MIN_PATCH_SIZE ∨ size > MAX_PATCH_SIZE ∨ ¬ isPowerOfTwo size.toNat then s
  else if size ≠ s.patchSize then
    createGeometryCall { s with patchSize := size }
  else s

/-- `Terrain::SetMaxLodLevels` (Terrain.cpp:209): the value is clamped into
`[MIN_LOD_LEVELS, MAX_LOD_LEVELS]`; if the clamped value differs it is
stored, `lastPatchSize_` is zeroed to force a full recreate, and
`CreateGeometry` is triggered. -/
def setMaxLodLevels (s : TerrainCfg) (levels : Nat) : TerrainCfg :=
  let levels := max MIN_LOD_LEVELS (min levels MAX_LOD_LEVELS)
  if levels ≠ s.maxLodLevels then
    createGeometryCall { s with maxLodLevels := levels, lastPatchSize := 0 }
  else s

/-- `Terrain::SetHeightMapInternal` (Terrain.cpp:1440): a block-compressed
image is rejected up front with `false` and nothing changes; otherwise the
image is stored and regeneration happens now (`CreateGeometry`) or is
deferred via `recreateTerrain_`. -/
def setHeightMapInternal (s : TerrainCfg) (image : Option ImageM) (recreateNow : Bool) :
    Bool × TerrainCfg :=
  if (match image with | some img => img.compressed | none => false) then
    (false, s)
  else
    let s := { s with heightMap := image }
    if recreateNow then (true, createGeometryCall s)
    else (true, { s with recreateTerrain := true })

/-- Claim C6 (amended): an invalid patch size — outside `[4,128]` or not a
power of two — is silently ignored (the state, including the regeneration
counter, is unchanged), whereas a max-LOD-levels value outside `[1,4]` is
clamped into range, and triggers a regeneration exactly when the clamped
value differs from the current setting. -/
theorem setters_invalid_values (s : TerrainCfg) (size : Int) (levels : Nat)
    (hsize : size < MIN_PATCH_SIZE ∨ size > MAX_PATCH_SIZE ∨ ¬ isPowerOfTwo size.toNat)
    (_hlevels : levels < MIN_LOD_LEVELS ∨ levels > MAX_LOD_LEVELS) :
    setPatchSize s size = s ∧
      (setMaxLodLevels s levels).maxLodLevels =
        max MIN_LOD_LEVELS (min levels MAX_LOD_LEVELS) ∧
      ((setMaxLodLevels s levels).regenCount = s.regenCount + 1 ↔
        max MIN_LOD_LEVELS (min levels MAX_LOD_LEVELS) ≠ s.maxLodLevels) ∧
      ((setMaxLodLevels s levels).regenCount = s.regenCount ↔
        max MIN_LOD_LEVELS (min levels MAX_LOD_LEVELS) = s.maxLodLevels) := by
  refine ⟨?_, ?_, ?_, ?_⟩
  · unfold setPatchSize
    rw [if_pos hsize]
  all_goals
    unfold setMaxLodLevels createGeometryCall
    by_cases hc : max MIN_LOD_LEVELS (min levels MAX_LOD_LEVELS) ≠ s.maxLodLevels
  · rw [if_pos hc]
  · rw [if_neg hc]
    simp only [ne_eq, not_not] at hc
    exact hc.symm
  · rw [if_pos hc]
    simpa using hc
  · rw [if_neg hc]
    simp only [ne_eq, not_not] at hc
    simpa using hc
  · rw [if_pos hc]
    simpa using hc
  · rw [if_neg hc]
    simp only [ne_eq, not_not] at hc
    simpa using hc

/-- Counterexample to C6 as stated: with the default `maxLodLevels_ = 4`,
requesting the out-of-range value 10 is clamped back to 4 and, being equal
to the current setting, triggers no regeneration at all — so an
out-of-range max-LOD-levels request does not always trigger regeneration. -/
theorem setMaxLodLevels_out_of_range_no_regen :
    (4 : Nat) < 10 ∧
      setMaxLodLevels ⟨32, 4, 0, 0, none, false, 0⟩ 10 = ⟨32, 4, 0, 0, none, false, 0⟩ ∧
      (setMaxLodLevels ⟨32, 4, 0, 0, none, false, 0⟩ 10).regenCount = 0 := by
  refine ⟨by decide, ?_, ?_⟩ <;> decide

/-- Witness for C6 (amended): an invalid patch size 33 is ignored, and an
out-of-range LOD level count 7 requested while the current setting is 2 is
clamped to 4 and regenerates. -/
theorem setters_invalid_values_witness :
    ((33 : Int) < MIN_PATCH_SIZE ∨ (33 : Int) > MAX_PATCH_SIZE ∨ ¬ isPowerOfTwo (33 : Int).toNat) ∧
      (7 < MIN_LOD_LEVELS ∨ 7 > MAX_LOD_LEVELS) ∧
      (setPatchSize ⟨32, 2, 0, 32, none, false, 0⟩ 33 = ⟨32, 2, 0, 32, none, false, 0⟩ ∧
        (setMaxLodLevels ⟨32, 2, 0, 32, none, false, 0⟩ 7).maxLodLevels =
          max MIN_LOD_LEVELS (min 7 MAX_LOD_LEVELS) ∧
        ((setMaxLodLevels ⟨32, 2, 0, 32, none, false, 0⟩ 7).regenCount = 0 + 1 ↔
          max MIN_LOD_LEVELS (min 7 MAX_LOD_LEVELS) ≠ 2) ∧
        ((setMaxLodLevels ⟨32, 2, 0, 32, none, false, 0⟩ 7).regenCount = 0 ↔
          max MIN_LOD_LEVELS (min 7 MAX_LOD_LEVELS) = 2)) :=
  ⟨by decide, by decide,
    setters_invalid_values ⟨32, 2, 0, 32, none, false, 0⟩ 33 7 (by decide) (by decide)⟩

/-- Claim C7: setting a block-compressed image as the height source fails by
returning `false`, and the operation is atomic: the stored height-map
reference and all other terrain state are unchanged and no regeneration is
triggered. -/
theorem setHeightMap_compressed_rejected (s : TerrainCfg) (img : ImageM) (recreateNow : Bool)
    (h : img.compressed = true) :
    setHeightMapInternal s (some img) recreateNow = (false, s) := by
  unfold setHeightMapInternal
  rw [if_pos h]

/-- Witness for C7: a compressed 4×4 image is rejected without touching the
state. -/
theorem setHeightMap_compressed_rejected_witness :
    (⟨4, 4, 1, true, []⟩ : ImageM).compressed = true ∧
      setHeightMapInternal ⟨32, 4, 0, 32, none, false, 0⟩ (some ⟨4, 4, 1, true, []⟩) true =
        (false, ⟨32, 4, 0, 32, none, false, 0⟩) :=
  ⟨rfl, setHeightMap_compressed_rejected ⟨32, 4, 0, 32, none, false, 0⟩ ⟨4, 4, 1, true, []⟩ true rfl⟩

/-! ### LOD geometric error (`Terrain::GetLodHeight`, `Terrain::CalculateLodErrors`) -/

/-- `Terrain::GetLodHeight` (Terrain.cpp:1341): the height the level-`lodLevel`
grid linearly interpolates at sample `(x, z)`; the sample coordinates are
non-negative wherever the code calls this. -/
def getLodHeight (t : TerrainM) (x z : Int) (lodLevel : Nat) : ℚ :=
  let offset : Int := 2 ^ lodLevel
  let xFrac : ℚ := ((x % offset : Int) : ℚ) / (offset : ℚ)
  let zFrac : ℚ := ((z % offset : Int) : ℚ) / (offset : ℚ)
  if xFrac + zFrac ≥ 1 then
    barycentricHeight (getRawHeight t (x + offset) (z + offset))
      (getRawHeight t x (z + offset)) (getRawHeight t (x + offset) z)
      (1 - xFrac) (1 - zFrac)
  else
    barycentricHeight (getRawHeight t x z) (getRawHeight t (x + offset) z)
      (getRawHeight t x (z + offset)) xFrac zFrac

/-- The inclusive integer range `[a, b]`. -/
def intRangeIncl (a b : Int) : List Int :=
  (List.range (b - a + 1).toNat).map (fun k => a + (k : Int))

/-- The samples `(x, z)` visited by the nested loops
`for z = zStart..zEnd, for x = xStart..xEnd` (both inclusive). -/
def patchSampleList (xStart xEnd zStart zEnd : Int) : List (Int × Int) :=
  (intRangeIncl zStart zEnd).flatMap (fun z => (intRangeIncl xStart xEnd).map (fun x => (x, z)))

/-- The test `x % divisor || z % divisor`: the sample is not aligned to the
level grid. -/
def lodMisaligned (divisor x z : Int) : Bool :=
  (x % divisor != 0) || (z % divisor != 0)

/-- `Abs(GetLodHeight(x, z, i) - GetRawHeight(x, z))`. -/
def lodSampleError (t : TerrainM) (i : Nat) (p : Int × Int) : ℚ :=
  |getLodHeight t p.1 p.2 i - getRawHeight t p.1 p.2|

/-- One iteration of the level loop of `Terrain::CalculateLodErrors`
(Terrain.cpp:1403): level 0 contributes 0; a later level takes the running
maximum of the misaligned sample errors and then floors it by
`0.25 * (spacing.x + spacing.z) * 2^i`. -/
def lodErrorAtLevel (t : TerrainM) (spacing : Vec3) (xStart zStart patchSize : Int)
    (i : Nat) : ℚ :=
  if i = 0 then 0
  else
    let divisor : Int := 2 ^ i
    let maxError :=
      (patchSampleList xStart (xStart + patchSize) zStart (zStart + patchSize)).foldl
        (fun m p => if lodMisaligned divisor p.1 p.2 then max (lodSampleError t i p) m else m) 0
    max maxError (1 / 4 * (spacing.x + spacing.z) * ((2 : ℚ) ^ i))

/-- `Terrain::CalculateLodErrors` (Terrain.cpp:1389): one error per LOD
level for the patch at grid coordinate `coords`. -/
def calculateLodErrors (t : TerrainM) (spacing : Vec3) (coords : Int × Int)
    (patchSize : Int) (numLodLevels : Nat) : List ℚ :=
  (List.range numLodLevels).map fun i =>
    lodErrorAtLevel t spacing (coords.1 * patchSize) (coords.2 * patchSize) patchSize i

/-- The level-`i` LOD error as the claim words it: the maximum, over all
samples in the patch extent not aligned to the level-`i` grid, of
`|GetLodHeight(x,z,i) - GetRawHeight(x,z)|`, floored to at least
`0.25 * (spacing.x + spacing.z) * 2^i`. -/
def lodErrorClaim (t : TerrainM) (spacing : Vec3) (xStart zStart patchSize : Int)
    (i : Nat) : ℚ :=
  max ((((patchSampleList xStart (xStart + patchSize) zStart (zStart + patchSize)).filter
          (fun p => lodMisaligned (2 ^ i) p.1 p.2)).map (lodSampleError t i)).foldl max 0)
      (1 / 4 * (spacing.x + spacing.z) * ((2 : ℚ) ^ i))

theorem foldl_max_of_filter (f : (Int × Int) → ℚ) (c : (Int × Int) → Bool)
    (l : List (Int × Int)) (a : ℚ) :
    l.foldl (fun m p => if c p then max (f p) m else m) a =
      ((l.filter c).map f).foldl max a := by
  induction l generalizing a with
  | nil => rfl
  | cons p rest ih =>
    by_cases hc : c p
    · simp only [List.foldl_cons, List.filter_cons, hc, if_true, List.map_cons]
      rw [ih, max_comm]
    · simp only [List.foldl_cons, List.filter_cons, hc, if_false, Bool.false_eq_true]
      rw [ih]

/-- Claim C3: `CalculateLodErrors` produces one error per LOD level with
`lodErrors[0] = 0`, and for every level `i > 0`, `lodErrors[i]` is the
maximum of `|GetLodHeight(x,z,i) - GetRawHeight(x,z)|` over all samples of
the patch extent not aligned to the level-`i` grid, floored to at least
`0.25 * (spacing.x + spacing.z) * 2^i`. -/
theorem calculateLodErrors_spec (t : TerrainM) (spacing : Vec3) (coords : Int × Int)
    (patchSize : Int) (numLodLevels : Nat) (h1 : 1 ≤ numLodLevels) :
    (calculateLodErrors t spacing coords patchSize numLodLevels).length = numLodLevels ∧
      (calculateLodErrors t spacing coords patchSize numLodLevels).getD 0 0 = 0 ∧
      ∀ i, 0 < i → i < numLodLevels →
        (calculateLodErrors t spacing coords patchSize numLodLevels).getD i 0 =
          lodErrorClaim t spacing (coords.1 * patchSize) (coords.2 * patchSize) patchSize i := by
  have hget : ∀ i, i < numLodLevels →
      (calculateLodErrors t spacing coords patchSize numLodLevels).getD i 0 =
        lodErrorAtLevel t spacing (coords.1 * patchSize) (coords.2 * patchSize) patchSize i := by
    intro i hi
    unfold calculateLodErrors
    rw [List.getD_eq_getElem?_getD, List.getElem?_map, List.getElem?_range hi]
    rfl
  refine ⟨by simp [calculateLodErrors], ?_, ?_⟩
  · rw [hget 0 (by omega)]
    unfold lodErrorAtLevel
    rw [if_pos rfl]
  · intro i hi0 hi
    rw [hget i hi]
    unfold lodErrorAtLevel lodErrorClaim
    rw [if_neg (by omega)]
    dsimp only
    rw [foldl_max_of_filter]

/-- Witness for C3 on a 3×3 height field, one 2×2 patch, two LOD levels:
the level-1 error equals the floored maximum described by the claim. -/
theorem calculateLodErrors_spec_witness :
    1 ≤ 2 ∧
      (calculateLodErrors ⟨none, ⟨1, 1/4, 1⟩, (0, 0), (3, 3), some [0, 2, 0, 2, 4, 2, 0, 2, 0], none⟩
          ⟨1, 1/4, 1⟩ (0, 0) 2 2).getD 1 0 =
        lodErrorClaim ⟨none, ⟨1, 1/4, 1⟩, (0, 0), (3, 3), some [0, 2, 0, 2, 4, 2, 0, 2, 0], none⟩
          ⟨1, 1/4, 1⟩ (0 * 2) (0 * 2) 2 1 :=
  ⟨by decide,
    (calculateLodErrors_spec ⟨none, ⟨1, 1/4, 1⟩, (0, 0), (3, 3), some [0, 2, 0, 2, 4, 2, 0, 2, 0], none⟩
        ⟨1, 1/4, 1⟩ (0, 0) 2 2 (by decide)).2.2 1 (by decide) (by decide)⟩

/-! ### Geometry creation (`Terrain::CreateGeometry`, `Terrain::CreateIndexData`) -/

/-- The loop `while (lodSize > MIN_PATCH_SIZE && numLodLevels_ < maxLodLevels_)
{ lodSize >>= 1; ++numLodLevels_; }` of `Terrain::CreateGeometry`
(Terrain.cpp:876). -/
def lodLevelLoop (maxLodLevels lodSize numLodLevels : Nat) : Nat :=
  if h : 4 < lodSize ∧ numLodLevels < maxLodLevels then
    lodLevelLoop maxLodLevels (lodSize / 2) (numLodLevels + 1)
  else numLodLevels
termination_by lodSize
decreasing_by exact Nat.div_lt_self (by omega) (by omega)

/-- The number of LOD levels `Terrain::CreateGeometry` derives from the
patch size and the configured maximum. -/
def computeNumLodLevels (patchSize maxLodLevels : Nat) : Nat :=
  lodLevelLoop maxLodLevels patchSize 1

/-- `numPatches_ = ((width - 1) / patchSize, (height - 1) / patchSize)`
(Terrain.cpp:889), with C++ truncating division. -/
def numPatchesOf (width height patchSize : Int) : Int × Int :=
  ((width - 1).tdiv patchSize, (height - 1).tdiv patchSize)

/-- `numVertices_ = numPatches_ * patchSize + 1` per axis (Terrain.cpp:890). -/
def numVerticesOf (numPatches : Int × Int) (patchSize : Int) : Int × Int :=
  (numPatches.1 * patchSize + 1, numPatches.2 * patchSize + 1)

/-- The patch grid coordinates visited by the patch-creation loops
(Terrain.cpp:1045-1095), one patch per coordinate, z outer and x inner. -/
def createdPatchCoords (numPatches : Int × Int) : List (Int × Int) :=
  (List.range numPatches.2.toNat).flatMap fun z =>
    (List.range numPatches.1.toNat).map fun x => ((x : Int), (z : Int))

/-- `row = patchSize + 1`; the vertex buffer of each patch holds `row * row`
vertices (Terrain.cpp:635,650). -/
def patchVertexCount (patchSize : Int) : Int := (patchSize + 1) * (patchSize + 1)

/-- The values visited by a C loop `for (v = start; v < stop; v += step)`
with positive step. -/
def stepRange (start stop step : Int) : List Int :=
  (List.range ((stop - start + step - 1) / step).toNat).map fun k => start + step * (k : Int)

/-- The cast of an index expression to `unsigned short`. -/
def toUShort (v : Int) : Int := v % 65536

/-- The index data `Terrain::CreateIndexData` (Terrain.cpp:1185-1311) emits
for one LOD level `i` and one stitch combination `j`: the main grid, then
the stitched north, south, west and east edges. -/
def buildLodCombination (patchSize : Int) (i : Nat) (j : Nat) : List Int :=
  let row : Int := patchSize + 1
  let skip : Int := 2 ^ i
  let zStart : Int := if j &&& STITCH_SOUTH ≠ 0 then skip else 0
  let zEnd : Int := if j &&& STITCH_NORTH ≠ 0 then patchSize - skip else patchSize
  let xStart : Int := if j &&& STITCH_WEST ≠ 0 then skip else 0
  let xEnd : Int := if j &&& STITCH_EAST ≠ 0 then patchSize - skip else patchSize
  let mainGrid :=
    (stepRange zStart zEnd skip).flatMap fun z =>
      (stepRange xStart xEnd skip).flatMap fun x =>
        [toUShort ((z + skip) * row + x), toUShort (z * row + x + skip), toUShort (z * row + x),
         toUShort ((z + skip) * row + x), toUShort ((z + skip) * row + x + skip),
         toUShort (z * row + x + skip)]
  let northEdge :=
    if j &&& STITCH_NORTH ≠ 0 then
      let z := patchSize - skip
      (stepRange 0 patchSize (skip * 2)).flatMap fun x =>
        (if x > 0 ∨ j &&& STITCH_WEST = 0 then
          [toUShort ((z + skip) * row + x), toUShort (z * row + x + skip), toUShort (z * row + x)]
         else []) ++
        [toUShort ((z + skip) * row + x), toUShort ((z + skip) * row + x + 2 * skip),
         toUShort (z * row + x + skip)] ++
        (if x < patchSize - skip * 2 ∨ j &&& STITCH_EAST = 0 then
          [toUShort ((z + skip) * row + x + 2 * skip), toUShort (z * row + x + 2 * skip),
           toUShort (z * row + x + skip)]
         else [])
    else []
  let southEdge :=
    if j &&& STITCH_SOUTH ≠ 0 then
      let z : Int := 0
      (stepRange 0 patchSize (skip * 2)).flatMap fun x =>
        (if x > 0 ∨ j &&& STITCH_WEST = 0 then
          [toUShort ((z + skip) * row + x), toUShort ((z + skip) * row + x + skip),
           toUShort (z * row + x)]
         else []) ++
        [toUShort (z * row + x), toUShort ((z + skip) * row + x + skip),
         toUShort (z * row + x + 2 * skip)] ++
        (if x < patchSize - skip * 2 ∨ j &&& STITCH_EAST = 0 then
          [toUShort ((z + skip) * row + x + skip), toUShort ((z + skip) * row + x + 2 * skip),
           toUShort (z * row + x + 2 * skip)]
         else [])
    else []
  let westEdge :=
    if j &&& STITCH_WEST ≠ 0 then
      let x : Int := 0
      (stepRange 0 patchSize (skip * 2)).flatMap fun z =>
        (if z > 0 ∨ j &&& STITCH_SOUTH = 0 then
          [toUShort (z * row + x), toUShort ((z + skip) * row + x + skip),
           toUShort (z * row + x + skip)]
         else []) ++
        [toUShort ((z + 2 * skip) * row + x), toUShort ((z + skip) * row + x + skip),
         toUShort (z * row + x)] ++
        (if z < patchSize - skip * 2 ∨ j &&& STITCH_NORTH = 0 then
          [toUShort ((z + 2 * skip) * row + x), toUShort ((z + 2 * skip) * row + x + skip),
           toUShort ((z + skip) * row + x + skip)]
         else [])
    else []
  let eastEdge :=
    if j &&& STITCH_EAST ≠ 0 then
      let x := patchSize - skip
      (stepRange 0 patchSize (skip * 2)).flatMap fun z =>
        (if z > 0 ∨ j &&& STITCH_SOUTH = 0 then
          [toUShort (z * row + x), toUShort ((z + skip) * row + x),
           toUShort (z * row + x + skip)]
         else []) ++
        [toUShort ((z + skip) * row + x), toUShort ((z + 2 * skip) * row + x + skip),
         toUShort (z * row + x + skip)] ++
        (if z < patchSize - skip * 2 ∨ j &&& STITCH_NORTH = 0 then
          [toUShort ((z + skip) * row + x), toUShort ((z + 2 * skip) * row + x),
           toUShort ((z + 2 * skip) * row + x + skip)]
         else [])
    else []
  mainGrid ++ northEdge ++ southEdge ++ westEdge ++ eastEdge

/-- `unsigned combinations = (i < numLodLevels_ - 1) ? 16 : 1`
(Terrain.cpp:1182). -/
def combinationsAt (numLodLevels i : Nat) : Nat :=
  if i < numLodLevels - 1 then 16 else 1

/-- The per-(level, combination) index blocks, in the order the nested loops
of `Terrain::CreateIndexData` push them. -/
def drawRangeBlocks (patchSize : Int) (numLodLevels : Nat) : List (List Int) :=
  (List.range numLodLevels).flatMap fun i =>
    (List.range (combinationsAt numLodLevels i)).map fun j => buildLodCombination patchSize i j

/-- The draw ranges `(indexStart, indexCount)` recorded after each
combination (Terrain.cpp:1187,1313), given the running start offset. -/
def drawRangesFrom (start : Nat) : List (List Int) → List (Nat × Nat)
  | [] => []
  | b :: bs => (start, b.length) :: drawRangesFrom (start + b.length) bs

/-- `Terrain::CreateIndexData` (Terrain.cpp:1161): the flat index buffer and
the draw-range table. -/
def createIndexData (patchSize : Int) (numLodLevels : Nat) : List Int × List (Nat × Nat) :=
  ((drawRangeBlocks patchSize numLodLevels).flatten,
    drawRangesFrom 0 (drawRangeBlocks patchSize numLodLevels))

theorem drawRangesFrom_length (bs : List (List Int)) :
    ∀ start, (drawRangesFrom start bs).length = bs.length := by
  induction bs with
  | nil => intro start; rfl
  | cons b rest ih =>
    intro start
    simp [drawRangesFrom, ih]

theorem sum_map_const16 (n : Nat) : ((List.range n).map fun _ => (16 : Nat)).sum = 16 * n := by
  induction n with
  | zero => rfl
  | succ m ih =>
    rw [List.range_succ, List.map_append, List.sum_append, ih]
    simp [Nat.mul_succ]

theorem drawRangeBlocks_length (patchSize : Int) (numLodLevels : Nat)
    (h : 1 ≤ numLodLevels) :
    (drawRangeBlocks patchSize numLodLevels).length = 16 * (numLodLevels - 1) + 1 := by
  obtain ⟨M, rfl⟩ : ∃ M, numLodLevels = M + 1 := ⟨numLodLevels - 1, by omega⟩
  unfold drawRangeBlocks
  rw [List.length_flatMap, List.range_succ, List.map_append, List.sum_append]
  have h1 : ((List.range M).map
      (List.length ∘ fun i => (List.range (combinationsAt (M + 1) i)).map
        fun j => buildLodCombination patchSize i j)).sum = 16 * M := by
    have hcongr : (List.range M).map
        (List.length ∘ fun i => (List.range (combinationsAt (M + 1) i)).map
          fun j => buildLodCombination patchSize i j) =
        (List.range M).map fun _ => (16 : Nat) := by
      apply List.map_congr_left
      intro a ha
      have haM : a < M := List.mem_range.mp ha
      simp [combinationsAt, haM]
    rw [hcongr, sum_map_const16]
  rw [h1]
  simp [combinationsAt]

/-- Claim C1: with a 65×65 heightmap, patchSize = 32 and maxLodLevels = 2,
`CreateGeometry` derives 2 LOD levels and a 2×2 patch grid (4 patches, each
with a 33×33 = 1089-vertex grid), and `CreateIndexData` produces exactly
17 draw ranges — in general `16 * (numLodLevels - 1) + 1`: every
non-coarsest level gets 16 stitch combinations, the coarsest exactly 1. -/
theorem createGeometry_65x65_scenario :
    computeNumLodLevels 32 2 = 2 ∧
      numPatchesOf 65 65 32 = (2, 2) ∧
      numVerticesOf (2, 2) 32 = (65, 65) ∧
      (createdPatchCoords (2, 2)).length = 4 ∧
      patchVertexCount 32 = 1089 ∧
      (createIndexData 32 (computeNumLodLevels 32 2)).2.length = 17 ∧
      (∀ i, i < 2 → combinationsAt 2 i = if i = 0 then 16 else 1) ∧
      (∀ patchSize numLodLevels, 1 ≤ numLodLevels →
        (createIndexData patchSize numLodLevels).2.length = 16 * (numLodLevels - 1) + 1) := by
  have hlod : computeNumLodLevels 32 2 = 2 := by
    unfold computeNumLodLevels
    rw [lodLevelLoop, dif_pos (by omega), lodLevelLoop, dif_neg (by omega)]
  have hlen : ∀ patchSize numLodLevels, 1 ≤ numLodLevels →
      (createIndexData patchSize numLodLevels).2.length = 16 * (numLodLevels - 1) + 1 := by
    intro patchSize numLodLevels h
    unfold createIndexData
    rw [drawRangesFrom_length, drawRangeBlocks_length patchSize numLodLevels h]
  refine ⟨hlod, by decide, by decide, by decide, by decide, ?_, ?_, hlen⟩
  · rw [hlod, hlen 32 2 (by omega)]
  · intro i hi
    interval_cases i <;> rfl

/-- Witness for the general draw-range count of C1 at patchSize 16 with 3 LOD
levels. -/
theorem createGeometry_65x65_scenario_witness :
    1 ≤ 3 ∧ (createIndexData 16 3).2.length = 16 * (3 - 1) + 1 :=
  ⟨by decide, createGeometry_65x65_scenario.2.2.2.2.2.2.2 16 3 (by decide)⟩

/-! ### Partial regeneration: changed region and dirty patches -/

/-- `IntRect(left, top, right, bottom)`. -/
structure IntRect where
  left : Int
  top : Int
  right : Int
  bottom : Int
deriving DecidableEq

/-- `GrowUpdateRegion` (Terrain.cpp:58): `left_ < 0` marks the empty
sentinel rectangle; otherwise each bound is pushed outward to contain
`(x, y)`. -/
def growUpdateRegion (r : IntRect) (x y : Int) : IntRect :=
  if r.left < 0 then ⟨x, y, x, y⟩
  else
    ⟨if x < r.left then x else r.left,
     if y < r.top then y else r.top,
     if x > r.right then x else r.right,
     if y > r.bottom then y else r.bottom⟩

/-- The update region accumulated over the changed samples during the
height-data copy (Terrain.cpp:961, 980, 1007), starting from the sentinel
`IntRect(-1, -1, -1, -1)`. -/
def updateRegionOf (changed : List (Int × Int)) : IntRect :=
  changed.foldl (fun r p => growUpdateRegion r p.1 p.2) ⟨-1, -1, -1, -1⟩

/-- The expansion of the update region before patch marking
(Terrain.cpp:1019-1024): `lodExpand = 1 << (numLodLevels_ - 1)` subtracted
from left/top and `lodExpand + 1` added to right/bottom ("Expand the
right & bottom 1 pixel more, as patches share vertices at the edge"). -/
def expandRegion (r : IntRect) (numLodLevels : Nat) : IntRect :=
  let lodExpand : Int := 2 ^ (numLodLevels - 1)
  ⟨r.left - lodExpand, r.top - lodExpand, r.right + lodExpand + 1, r.bottom + lodExpand + 1⟩

/-- The clamped dirty-patch coordinate bounds `sX, sY, eX, eY`
(Terrain.cpp:1026-1029); C++ `/` on `int` truncates toward zero
(`Int.tdiv`). -/
def dirtyBounds (r : IntRect) (patchSize : Int) (numPatches : Int × Int) : IntRect :=
  ⟨max (r.left.tdiv patchSize) 0, max (r.top.tdiv patchSize) 0,
   min (r.right.tdiv patchSize) (numPatches.1 - 1),
   min (r.bottom.tdiv patchSize) (numPatches.2 - 1)⟩

/-- Whether the patch at grid coordinate `(px, py)` is marked dirty by the
loops at Terrain.cpp:1030-1034. -/
def isPatchDirty (r : IntRect) (numLodLevels : Nat) (patchSize : Int)
    (numPatches : Int × Int) (px py : Int) : Bool :=
  let d := dirtyBounds (expandRegion r numLodLevels) patchSize numPatches
  decide (d.left ≤ px ∧ px ≤ d.right ∧ d.top ≤ py ∧ py ≤ d.bottom)

/-- The expansion as the claim words it: `2^(numLodLevels-1) + 1` samples on every
side. -/
def claimExpandRegion (r : IntRect) (numLodLevels : Nat) : IntRect :=
  let d : Int := 2 ^ (numLodLevels - 1) + 1
  ⟨r.left - d, r.top - d, r.right + d, r.bottom + d⟩

/-- The dirty predicate as the claim words it: the (closed) sample footprint
`[px*patchSize, (px+1)*patchSize] × [py*patchSize, (py+1)*patchSize]`
intersects the claim-expanded rectangle. -/
def claimPatchDirty (r : IntRect) (numLodLevels : Nat) (patchSize : Int)
    (px py : Int) : Bool :=
  let er := claimExpandRegion r numLodLevels
  decide (px * patchSize ≤ er.right ∧ er.left ≤ (px + 1) * patchSize ∧
          py * patchSize ≤ er.bottom ∧ er.top ≤ (py + 1) * patchSize)

theorem tdiv_eq_ediv_nonneg (a b : Int) (ha : 0 ≤ a) (hb : 0 ≤ b) : a.tdiv b = a / b := by
  obtain ⟨m, rfl⟩ := Int.eq_ofNat_of_zero_le ha
  obtain ⟨n, rfl⟩ := Int.eq_ofNat_of_zero_le hb
  rfl

theorem tdiv_nonpos_of_neg (a b : Int) (ha : a < 0) (hb : 0 ≤ b) : a.tdiv b ≤ 0 := by
  obtain ⟨m, rfl⟩ := Int.eq_negSucc_of_lt_zero ha
  obtain ⟨n, rfl⟩ := Int.eq_ofNat_of_zero_le hb
  show -(Int.ofNat (Nat.succ m / n)) ≤ 0
  exact neg_nonpos.mpr (Int.ofNat_nonneg _)

/-- `max (A.tdiv ps) 0 ≤ px` says exactly that the half-open interval
`[px*ps, (px+1)*ps)` reaches `A`. -/
theorem startBound_le_iff (A ps px : Int) (hps : 0 < ps) (hpx : 0 ≤ px) :
    max (A.tdiv ps) 0 ≤ px ↔ A < (px + 1) * ps := by
  rcases le_or_lt 0 A with hA | hA
  · rw [max_le_iff, tdiv_eq_ediv_nonneg A ps hA (le_of_lt hps)]
    constructor
    · rintro ⟨h1, -⟩
      calc A < (A / ps + 1) * ps := Int.lt_ediv_add_one_mul_self A hps
        _ ≤ (px + 1) * ps := by
          apply mul_le_mul_of_nonneg_right _ (le_of_lt hps)
          omega
    · intro h1
      refine ⟨?_, hpx⟩
      have := (Int.ediv_lt_iff_lt_mul hps).mpr h1
      omega
  · constructor
    · intro _
      calc A < 0 := hA
        _ < (px + 1) * ps := by positivity
    · intro _
      rw [max_le_iff]
      exact ⟨le_trans (tdiv_nonpos_of_neg A ps hA (le_of_lt hps)) hpx, hpx⟩

/-- `px ≤ B.tdiv ps` says exactly that the patch footprint starts no later
than `B`. -/
theorem endBound_ge_iff (B ps px : Int) (hps : 0 < ps) (hB : 0 ≤ B) :
    px ≤ B.tdiv ps ↔ px * ps ≤ B := by
  rw [tdiv_eq_ediv_nonneg B ps hB (le_of_lt hps)]
  exact Int.le_ediv_iff_mul_le hps

theorem growUpdateRegion_min_max (l t rr b x y : Int) (hl : 0 ≤ l) :
    growUpdateRegion ⟨l, t, rr, b⟩ x y = ⟨min l x, min t y, max rr x, max b y⟩ := by
  unfold growUpdateRegion
  rw [if_neg (by simp; omega)]
  have h1 : (if x < l then x else l) = min l x := by split_ifs <;> omega
  have h2 : (if y < t then y else t) = min t y := by split_ifs <;> omega
  have h3 : (if x > rr then x else rr) = max rr x := by split_ifs <;> omega
  have h4 : (if y > b then y else b) = max b y := by split_ifs <;> omega
  rw [h1, h2, h3, h4]

theorem foldl_growUpdateRegion (rest : List (Int × Int))
    (hrest : ∀ p ∈ rest, 0 ≤ p.1) :
    ∀ l t rr b : Int, 0 ≤ l →
      rest.foldl (fun r p => growUpdateRegion r p.1 p.2) ⟨l, t, rr, b⟩ =
        ⟨rest.foldl (fun m p => min m p.1) l, rest.foldl (fun m p => min m p.2) t,
         rest.foldl (fun m p => max m p.1) rr, rest.foldl (fun m p => max m p.2) b⟩ := by
  induction rest with
  | nil => intro l t rr b _; rfl
  | cons q rest2 ih =>
    intro l t rr b hl
    have hq : 0 ≤ q.1 := hrest q (List.mem_cons_self q rest2)
    have hrest2 : ∀ p ∈ rest2, 0 ≤ p.1 := fun p hp => hrest p (List.mem_cons_of_mem q hp)
    simp only [List.foldl_cons]
    rw [growUpdateRegion_min_max l t rr b q.1 q.2 hl]
    exact ih hrest2 (min l q.1) (min t q.2) (max rr q.1) (max b q.2) (le_min hl hq)

/-- Claim C5 (amended): during partial regeneration the minimal
changed-sample rectangle is expanded by `2^(numLodLevels-1)` samples on the
left/top sides and `2^(numLodLevels-1)+1` on the right/bottom sides, and
exactly the patches whose half-open sample footprint
`[px*patchSize, (px+1)*patchSize) × [py*patchSize, (py+1)*patchSize)`
meets that expanded rectangle are marked dirty (only those patches are
rebuilt); consequently changing a single height sample only marks patches
within `2^(numLodLevels-1)+2` samples of it as dirty. -/
theorem updateRegion_dirty_patches (patchSize : Int) (numPatches : Int × Int)
    (numLodLevels : Nat) (r : IntRect)
    (hps : 0 < patchSize) (hl : 0 ≤ r.left) (ht : 0 ≤ r.top)
    (hlr : r.left ≤ r.right) (htb : r.top ≤ r.bottom) :
    (∀ x y : Int, ∀ rest : List (Int × Int), 0 ≤ x →
      (∀ p ∈ rest, 0 ≤ p.1) →
      updateRegionOf ((x, y) :: rest) =
        ⟨rest.foldl (fun m p => min m p.1) x, rest.foldl (fun m p => min m p.2) y,
         rest.foldl (fun m p => max m p.1) x, rest.foldl (fun m p => max m p.2) y⟩) ∧
      (∀ px py : Int, 0 ≤ px → px < numPatches.1 → 0 ≤ py → py < numPatches.2 →
        (isPatchDirty r numLodLevels patchSize numPatches px py = true ↔
          px * patchSize ≤ (expandRegion r numLodLevels).right ∧
            (expandRegion r numLodLevels).left < (px + 1) * patchSize ∧
            py * patchSize ≤ (expandRegion r numLodLevels).bottom ∧
            (expandRegion r numLodLevels).top < (py + 1) * patchSize)) ∧
      (∀ x0 y0 px py : Int, r = ⟨x0, y0, x0, y0⟩ →
        0 ≤ px → px < numPatches.1 → 0 ≤ py → py < numPatches.2 →
        isPatchDirty r numLodLevels patchSize numPatches px py = true →
          px * patchSize ≤ x0 + 2 ^ (numLodLevels - 1) + 2 ∧
            x0 ≤ px * patchSize + patchSize + 2 ^ (numLodLevels - 1) + 2 ∧
            py * patchSize ≤ y0 + 2 ^ (numLodLevels - 1) + 2 ∧
            y0 ≤ py * patchSize + patchSize + 2 ^ (numLodLevels - 1) + 2) := by
  have hlodpos : (0 : Int) < 2 ^ (numLodLevels - 1) := by positivity
  have hchar : ∀ px py : Int, 0 ≤ px → px < numPatches.1 → 0 ≤ py → py < numPatches.2 →
      (isPatchDirty r numLodLevels patchSize numPatches px py = true ↔
        px * patchSize ≤ (expandRegion r numLodLevels).right ∧
          (expandRegion r numLodLevels).left < (px + 1) * patchSize ∧
          py * patchSize ≤ (expandRegion r numLodLevels).bottom ∧
          (expandRegion r numLodLevels).top < (py + 1) * patchSize) := by
    intro px py hpx0 hpx1 hpy0 hpy1
    unfold isPatchDirty dirtyBounds expandRegion
    rw [decide_eq_true_iff]
    dsimp only
    rw [startBound_le_iff (r.left - 2 ^ (numLodLevels - 1)) patchSize px hps hpx0,
      startBound_le_iff (r.top - 2 ^ (numLodLevels - 1)) patchSize py hps hpy0,
      le_min_iff, le_min_iff,
      endBound_ge_iff (r.right + 2 ^ (numLodLevels - 1) + 1) patchSize px hps (by omega),
      endBound_ge_iff (r.bottom + 2 ^ (numLodLevels - 1) + 1) patchSize py hps (by omega)]
    constructor
    · rintro ⟨h1, ⟨h2, -⟩, h3, h4, -⟩
      exact ⟨h2, h1, h4, h3⟩
    · rintro ⟨h1, h2, h3, h4⟩
      exact ⟨h2, ⟨h1, by omega⟩, h4, h3, by omega⟩
  refine ⟨?_, hchar, ?_⟩
  · intro x y rest hx hrest
    unfold updateRegionOf
    simp only [List.foldl_cons]
    have hsent : growUpdateRegion ⟨-1, -1, -1, -1⟩ x y = ⟨x, y, x, y⟩ := by
      unfold growUpdateRegion
      rw [if_pos (by simp)]
    rw [hsent]
    exact foldl_growUpdateRegion rest hrest x y x y hx
  · intro x0 y0 px py hr hpx0 hpx1 hpy0 hpy1 hdirty
    have h := (hchar px py hpx0 hpx1 hpy0 hpy1).mp hdirty
    subst hr
    unfold expandRegion at h
    dsimp only at h
    obtain ⟨h1, h2, h3, h4⟩ := h
    refine ⟨by linarith, by linarith, by linarith, by linarith⟩

/-- Counterexample to C5 as stated: 2×2 patches of size 32, 2 LOD levels,
a single changed sample at (34, 34). The expansion the claim asks for
(`2^(numLodLevels-1)+1 = 3` per side) gives the rectangle [31,37]×[31,37],
which the footprint of patch (0,0) intersects — but the code expands the
left/top sides by only `2^(numLodLevels-1) = 2`, computes `sX = sY = 1`,
and does not mark patch (0,0) dirty. -/
theorem updateRegion_expansion_counterexample :
    updateRegionOf [(34, 34)] = ⟨34, 34, 34, 34⟩ ∧
      claimPatchDirty (updateRegionOf [(34, 34)]) 2 32 0 0 = true ∧
      isPatchDirty (updateRegionOf [(34, 34)]) 2 32 (2, 2) 0 0 = false := by
  refine ⟨by decide, by decide, by decide⟩

/-- Witness for C5 (amended): patch size 4, 2×2 patches, 2 LOD levels, a
single changed sample at (5, 5); the dirty characterization instantiated at
patch (1, 1). -/
theorem updateRegion_dirty_patches_witness :
    (0 : Int) < 4 ∧ (0 : Int) ≤ 5 ∧ (5 : Int) ≤ 5 ∧
      (isPatchDirty ⟨5, 5, 5, 5⟩ 2 4 (2, 2) 1 1 = true ↔
        (1 : Int) * 4 ≤ (expandRegion ⟨5, 5, 5, 5⟩ 2).right ∧
          (expandRegion ⟨5, 5, 5, 5⟩ 2).left < ((1 : Int) + 1) * 4 ∧
          (1 : Int) * 4 ≤ (expandRegion ⟨5, 5, 5, 5⟩ 2).bottom ∧
          (expandRegion ⟨5, 5, 5, 5⟩ 2).top < ((1 : Int) + 1) * 4) :=
  ⟨by decide, by decide, by decide,
    (updateRegion_dirty_patches 4 (2, 2) 2 ⟨5, 5, 5, 5⟩ (by decide) (by decide) (by decide)
        (by decide) (by decide)).2.1 1 1 (by decide) (by decide) (by decide) (by decide)⟩

end Terrain
